import Mathlib

/-!
Shallow embedding of the test-execution and evaluation pipeline of the
AI-agent testing backend (src/backend/app): the response evaluator, the
remote prompt invoker, the predefined test-case catalog, the execution
orchestrator with its in-memory execution store, the report generator and
the /execute-tests route handler.  Remote calls, clocks and uuid generation
are modelled as explicit oracle inputs; Python floats are modelled as
rationals; Python string truthiness is modelled explicitly.
-/

namespace AITest

/-- Python truthiness of an optional string: None and the empty string are falsy. -/
def truthy : Option String → Bool
  | none => false
  | some s => if s = "" then false else true

/-- Python `a or b` for an optional string `a` with a string default (models
`test_case.id or "unknown"` in ai_service.py:50). -/
def pyOrStr (a : Option String) (b : String) : String :=
  if truthy a then a.getD "" else b

/-- Python `a or b` on two plain strings (models `settings.OPENROUTER_API_KEY or
settings.OPENAI_API_KEY` in test_service.py:28; config.py defaults both to ""). -/
def pyOrS (a b : String) : String :=
  if a = "" then b else a

/-- The first list is a prefix of the second (character lists). -/
def startsWithList : List Char → List Char → Bool
  | [], _ => true
  | _ :: _, [] => false
  | a :: as, b :: bs => a == b && startsWithList as bs

/-- Python substring containment `needle in hay`, on character lists. -/
def containsList : List Char → List Char → Bool
  | needle, [] => needle.isEmpty
  | needle, b :: bs => startsWithList needle (b :: bs) || containsList needle bs

/-- Python `needle in hay` on strings. -/
def strContains (hay needle : String) : Bool :=
  containsList needle.toList hay.toList

/-- Python `s.strip()`: the string with leading and trailing whitespace
removed (structural on the character list, so it evaluates by reduction). -/
def pyStrip (s : String) : String :=
  ⟨((s.toList.dropWhile Char.isWhitespace).reverse.dropWhile Char.isWhitespace).reverse⟩

/-- Python `s.lower()` (ASCII case folding, structural on the character list). -/
def pyLower (s : String) : String :=
  ⟨s.toList.map Char.toLower⟩

/-- Specification-side predicate: `needle` occurs as a contiguous substring
anywhere in `hay`. -/
def OccursIn (needle hay : String) : Prop :=
  ∃ pre post : List Char, hay.toList = pre ++ needle.toList ++ post

/-- models.py:6 TestStatus. -/
inductive TestStatus
  | passed
  | failed
  | pending
  | error
deriving DecidableEq

/-- models.py:12 TestCategory. -/
inductive TestCategory
  | prompt_understanding
  | response_accuracy
  | fallback_handling
  | task_execution
  | performance
deriving DecidableEq

/-- The `.value` string of each TestCategory member (models.py:12). -/
def TestCategory.value : TestCategory → String
  | .prompt_understanding => "prompt_understanding"
  | .response_accuracy => "response_accuracy"
  | .fallback_handling => "fallback_handling"
  | .task_execution => "task_execution"
  | .performance => "performance"

/-- models.py:19 TestCase (created_at carries no logic and is omitted). -/
structure TestCase where
  id : Option String := none
  prompt : String
  expected_response : Option String := none
  category : TestCategory
  description : String
  timeout : Int := 30
deriving DecidableEq

/-- The metadata dictionary attached to a TestResult: exactly the keys the
source ever writes (ai_service.py:56, ai_service.py:71, test_service.py:55).
`none` in an Option field models an absent key. -/
structure Metadata where
  model : String
  category : Option String := none
  tokens_used : Option (Option Nat) := none
  mock : Option Bool := none
deriving DecidableEq

/-- models.py:28 TestResult (id and created_at carry no logic and are omitted). -/
structure TestResult where
  test_case_id : String
  actual_response : String
  status : TestStatus
  response_time : ℚ
  accuracy_score : Option ℚ := none
  error_message : Option String := none
  metadata : Metadata
deriving DecidableEq

/-- ai_service.py:101 the fixed fallback-indicator phrases. -/
def fallback_indicators : List String :=
  ["i don't know", "i'm not sure", "i can't", "i don't have", "unable to"]

/-- ai_service.py:85 AIService._evaluate_response.  Pure; the enclosing
try/except never fires on a genuine string input, so it is not modelled. -/
def _evaluate_response (test_case : TestCase) (actual_response : String) :
    TestStatus × Option ℚ × Option String :=
  if pyStrip actual_response = "" then
    (TestStatus.failed, some 0, some "Empty response")
  else if truthy test_case.expected_response then
    if strContains (pyLower actual_response) (pyLower (test_case.expected_response.getD "")) then
      (TestStatus.passed, some 1, none)
    else
      (TestStatus.failed, some 0, some "Response doesn't match expected pattern")
  else if test_case.category = TestCategory.fallback_handling then
    if fallback_indicators.any (fun ind => strContains (pyLower actual_response) ind) then
      (TestStatus.passed, some (8/10), none)
    else
      (TestStatus.failed, some (3/10), some "No fallback handling detected")
  else
    (TestStatus.passed, some (7/10), none)

/-- Outcome of one remote chat-completion call: the generated text and the
optional token-usage count (`response.usage.total_tokens if hasattr(...)`). -/
structure RemoteSuccess where
  content : String
  tokens_used : Option Nat := none
deriving DecidableEq

/-- ai_service.py:20 AIService.test_prompt.  The remote call is the one
effect; it is passed in as an `Except` value (error = stringified exception),
and the elapsed wall-clock time measured around the call is passed in as a
rational. -/
def test_prompt (model : String) (test_case : TestCase)
    (outcome : Except String RemoteSuccess) (elapsed : ℚ) : TestResult :=
  match outcome with
  | Except.ok r =>
      let e := _evaluate_response test_case r.content
      { test_case_id := pyOrStr test_case.id "unknown"
        actual_response := r.content
        status := e.1
        response_time := elapsed
        accuracy_score := e.2.1
        error_message := e.2.2
        metadata := { model := model
                      category := some test_case.category.value
                      tokens_used := some r.tokens_used } }
  | Except.error msg =>
      { test_case_id := pyOrStr test_case.id "unknown"
        actual_response := ""
        status := TestStatus.error
        response_time := elapsed
        accuracy_score := none
        error_message := some msg
        metadata := { model := model
                      category := some test_case.category.value } }

/-- ai_service.py:169 the per-category hand-authored case lists, verbatim.
In the source the dictionary is rebuilt on each call and indexed by the
`category` argument, so each list's `category` field is that argument. -/
def predefinedCatalog (category : TestCategory) : List TestCase :=
  match category with
  | .prompt_understanding =>
      [ { prompt := "Hello, how are you?"
          description := "Basic greeting understanding"
          category := category }
      , { prompt := "What's the weather like?"
          description := "Ambiguous query handling"
          category := category }
      , { prompt := "Can you help me with my homework?"
          description := "Request for assistance"
          category := category } ]
  | .response_accuracy =>
      [ { prompt := "What is 2+2?"
          expected_response := some "4"
          description := "Basic math accuracy"
          category := category }
      , { prompt := "Who is the current president of the United States?"
          description := "Factual information accuracy"
          category := category }
      , { prompt := "What is the capital of France?"
          expected_response := some "Paris"
          description := "Geographic knowledge"
          category := category } ]
  | .fallback_handling =>
      [ { prompt := "What is the meaning of life?"
          description := "Philosophical question handling"
          category := category }
      , { prompt := "Tell me about the future"
          description := "Speculative question handling"
          category := category }
      , { prompt := "What's the secret to eternal youth?"
          description := "Impossible question handling"
          category := category } ]
  | .task_execution =>
      [ { prompt := "Write a short poem about cats"
          description := "Creative task execution"
          category := category }
      , { prompt := "Explain quantum physics in simple terms"
          description := "Complex topic explanation"
          category := category }
      , { prompt := "Give me a recipe for chocolate chip cookies"
          description := "Instruction provision"
          category := category } ]
  | .performance =>
      [ { prompt := "Summarize the benefits of exercise"
          description := "Concise summarization"
          category := category }
      , { prompt := "List 5 ways to save money"
          description := "Structured response generation"
          category := category }
      , { prompt := "Explain photosynthesis in one sentence"
          description := "Brevity requirement"
          category := category } ]

/-- ai_service.py:167 AIService._get_predefined_test_cases: the category's
list sliced to the first `count` entries (`cases.get(category, [])[:count]`;
the default branch is unreachable since the dictionary covers every member,
and `count` is used as a non-negative slice bound). -/
def _get_predefined_test_cases (category : TestCategory) (count : Nat) : List TestCase :=
  (predefinedCatalog category).take count

/-- ai_service.py:113 AIService.generate_test_cases: issues one remote call,
then discards the model output and returns the predefined cases; on any
exception it likewise returns the predefined cases. -/
def generate_test_cases (category : TestCategory) (count : Nat)
    (outcome : Except String RemoteSuccess) : List TestCase :=
  match outcome with
  | Except.ok _ => _get_predefined_test_cases category count
  | Except.error _ => _get_predefined_test_cases category count

/-- config.py Settings: the two credential fields the orchestrator reads,
both environment strings defaulting to "". -/
structure Settings where
  OPENROUTER_API_KEY : String := ""
  OPENAI_API_KEY : String := ""
deriving DecidableEq

/-- test_service.py:26 credential resolution: the request key, unless absent
or the placeholder "dummy_key", in which case the configured fallback
`settings.OPENROUTER_API_KEY or settings.OPENAI_API_KEY`. -/
def effective_api_key (request_api_key : String) (s : Settings) : String :=
  if request_api_key = "" ∨ request_api_key = "dummy_key" then
    pyOrS s.OPENROUTER_API_KEY s.OPENAI_API_KEY
  else request_api_key

/-- test_service.py:39 `if not test_case.id: test_case.id = str(uuid.uuid4())`. -/
def assignId (uuid : String) (tc : TestCase) : TestCase :=
  if truthy tc.id then tc else { tc with id := some uuid }

/-- test_service.py:50 the fixed placeholder text of a mock result. -/
def mockMessage : String :=
  "This is a mock response for testing purposes. Please configure your API key in settings."

/-- test_service.py:48 the mock TestResult synthesized when no credential is
available (the loop has already assigned the case an id). -/
def mockResult (model : String) (tc : TestCase) : TestResult :=
  { test_case_id := tc.id.getD ""
    actual_response := mockMessage
    status := TestStatus.passed
    response_time := 1/10
    accuracy_score := some 1
    error_message := none
    metadata := { model := model
                  category := some tc.category.value
                  mock := some true } }

/-- The per-case nondeterminism of one execution run, passed in explicitly:
the remote call outcome, the elapsed time, and the uuid drawn for a case
missing an id, each as a function of the case's position. -/
structure Oracle where
  outcome : Nat → Except String RemoteSuccess
  elapsed : Nat → ℚ
  case_uuid : Nat → String

/-- test_service.py:43 one iteration of the execution loop: a credential
selects the real invoker path, otherwise the mock result. -/
def runCase (model api_key : String) (tc : TestCase)
    (outcome : Except String RemoteSuccess) (elapsed : ℚ) : TestResult :=
  if api_key ≠ "" then test_prompt model tc outcome elapsed
  else mockResult model tc

/-- test_service.py:35 the execution loop, strictly in input order, one case
at a time, starting from position `start`. -/
def runCases (model api_key : String) (orc : Oracle) : Nat → List TestCase → List TestResult
  | _, [] => []
  | i, tc :: rest =>
      runCase model api_key (assignId (orc.case_uuid i) tc) (orc.outcome i) (orc.elapsed i)
        :: runCases model api_key orc (i + 1) rest

/-- test_service.py:65 one step of the pass/fail counter accumulation. -/
def tallyStep (pf : Nat × Nat) (r : TestResult) : Nat × Nat :=
  if r.status = TestStatus.passed then (pf.1 + 1, pf.2) else (pf.1, pf.2 + 1)

/-- The (passed_tests, failed_tests) counters accumulated over the loop. -/
def tally (results : List TestResult) : Nat × Nat :=
  results.foldl tallyStep (0, 0)

/-- Number of results whose status is `passed`. -/
def countPassed (results : List TestResult) : Nat :=
  results.countP (fun r => decide (r.status = TestStatus.passed))

/-- Number of results with any other status (failed, error, pending). -/
def countNotPassed (results : List TestResult) : Nat :=
  results.countP (fun r => decide (r.status ≠ TestStatus.passed))

/-- One step of the category-breakdown dictionary update
(`breakdown[category] += 1`, inserting the key at 0 first): increments the
unique existing binding, else appends a new one, as an insertion-ordered
association list. -/
def bumpCategory : List (String × Nat) → String → List (String × Nat)
  | [], cat => [(cat, 1)]
  | p :: rest, cat =>
      if p.1 = cat then (p.1, p.2 + 1) :: rest else p :: bumpCategory rest cat

/-- test_service.py:96 TestService._get_category_breakdown: every result is
counted under `metadata.get("category", "unknown")`.  The identical loop is
inlined again at test_service.py:152 inside generate_test_report. -/
def _get_category_breakdown (results : List TestResult) : List (String × Nat) :=
  results.foldl (fun b r => bumpCategory b (r.metadata.category.getD "unknown")) []

/-- Total of the counts in a breakdown dictionary. -/
def sumValues (b : List (String × Nat)) : Nat :=
  (b.map Prod.snd).sum

/-- models.py:52 the summary dictionary of a TestExecutionResponse: exactly
the keys test_service.py:83 writes. -/
structure Summary where
  success_rate : ℚ
  average_response_time : ℚ
  category_breakdown : List (String × Nat)
  model_used : String
deriving DecidableEq

/-- models.py:46 TestExecutionRequest. -/
structure TestExecutionRequest where
  test_suite_id : Option String := none
  test_cases : List TestCase
  api_key : String
  model : String := "gpt-3.5-turbo"
deriving DecidableEq

/-- models.py:52 TestExecutionResponse. -/
structure TestExecutionResponse where
  execution_id : String
  total_tests : Nat
  passed_tests : Nat
  failed_tests : Nat
  results : List TestResult
  execution_time : ℚ
  summary : Summary
deriving DecidableEq

/-- Insert-or-overwrite into a string-keyed dictionary kept as an
insertion-ordered association list (`self.executions[id] = response`). -/
def dictInsert {β : Type} : List (String × β) → String → β → List (String × β)
  | [], k, v => [(k, v)]
  | p :: rest, k, v =>
      if p.1 = k then (k, v) :: rest else p :: dictInsert rest k v

/-- `dict.get(k)`: the binding of the (unique) key, if present. -/
def dictGet {β : Type} : List (String × β) → String → Option β
  | [], _ => none
  | p :: rest, k => if p.1 = k then some p.2 else dictGet rest k

/-- What one call of execute_test_suite produces: the response it returns,
the store after `self.executions[execution_id] = response`, and (as an
instrumentation of the effect the claims speak about) how many remote calls
the run issued. -/
structure ExecEffects where
  response : TestExecutionResponse
  store : List (String × TestExecutionResponse)
  remote_calls : Nat

/-- test_service.py:20 TestService.execute_test_suite.  The fresh
execution_id, the wall-clock execution_time and the per-case oracle are
explicit inputs; the 0.1-second inter-case sleep has no observable effect on
the data and is not modelled. -/
def execute_test_suite (req : TestExecutionRequest) (s : Settings)
    (execution_id : String) (orc : Oracle) (execution_time : ℚ)
    (store : List (String × TestExecutionResponse)) : ExecEffects :=
  let api_key := effective_api_key req.api_key s
  let results := runCases req.model api_key orc 0 req.test_cases
  let counts := tally results
  let response : TestExecutionResponse :=
    { execution_id := execution_id
      total_tests := req.test_cases.length
      passed_tests := counts.1
      failed_tests := counts.2
      results := results
      execution_time := execution_time
      summary :=
        { success_rate :=
            if req.test_cases ≠ [] then
              ((counts.1 : ℚ) / (req.test_cases.length : ℚ)) * 100
            else 0
          average_response_time :=
            if results ≠ [] then
              (results.map TestResult.response_time).sum / (results.length : ℚ)
            else 0
          category_breakdown := _get_category_breakdown results
          model_used := req.model } }
  { response := response
    store := dictInsert store execution_id response
    remote_calls := if api_key ≠ "" then req.test_cases.length else 0 }

/-- models.py:61 TestReport (execution_date carries no logic and is omitted). -/
structure TestReport where
  execution_id : String
  test_suite_name : String
  total_tests : Nat
  passed_tests : Nat
  failed_tests : Nat
  success_rate : ℚ
  average_response_time : ℚ
  category_breakdown : List (String × Nat)
  detailed_results : List TestResult
deriving DecidableEq

/-- test_service.py:139 TestService.generate_test_report; an unknown id
raises ValueError, modelled as the error branch. -/
def generate_test_report (store : List (String × TestExecutionResponse))
    (execution_id : String) : Except String TestReport :=
  match dictGet store execution_id with
  | none => Except.error ("Execution " ++ execution_id ++ " not found")
  | some execution =>
      Except.ok
        { execution_id := execution_id
          test_suite_name := "Generated Test Suite"
          total_tests := execution.total_tests
          passed_tests := execution.passed_tests
          failed_tests := execution.failed_tests
          success_rate :=
            if execution.total_tests > 0 then
              ((execution.passed_tests : ℚ) / (execution.total_tests : ℚ)) * 100
            else 0
          average_response_time :=
            if execution.results ≠ [] then
              (execution.results.map TestResult.response_time).sum /
                (execution.results.length : ℚ)
            else 0
          category_breakdown := _get_category_breakdown execution.results
          detailed_results := execution.results }

/-- What the /execute-tests handler sends back. -/
inductive RouteResponse
  | success (body : TestExecutionResponse)
  | httpError (status_code : Nat) (detail : String)
deriving DecidableEq

/-- The handler's observable effects: the HTTP response, the store
afterwards, and how many remote calls were issued. -/
structure RouteEffects where
  response : RouteResponse
  store : List (String × TestExecutionResponse)
  remote_calls : Nat

/-- routes.py:53 the /execute-tests handler.  It raises HTTPException(400,
detail) for a missing credential or an empty case list, but its own blanket
`except Exception` (routes.py:70) catches that very exception and re-raises
HTTPException(500, "Failed to execute tests: " + str(e)), where str of an
HTTPException renders as "status_code: detail" — so the client observes 500,
not 400.  (The sibling handlers at routes.py:113 and routes.py:152 re-raise
HTTPException before their catch-all; this one does not.) -/
def execute_tests_route (req : TestExecutionRequest) (s : Settings)
    (execution_id : String) (orc : Oracle) (execution_time : ℚ)
    (store : List (String × TestExecutionResponse)) : RouteEffects :=
  if req.api_key = "" then
    { response := RouteResponse.httpError 500
        "Failed to execute tests: 400: API key is required"
      store := store
      remote_calls := 0 }
  else if req.test_cases = [] then
    { response := RouteResponse.httpError 500
        "Failed to execute tests: 400: At least one test case is required"
      store := store
      remote_calls := 0 }
  else
    let eff := execute_test_suite req s execution_id orc execution_time store
    { response := RouteResponse.success eff.response
      store := eff.store
      remote_calls := eff.remote_calls }

/-- Settings with no configured fallback credential (the config.py defaults). -/
def settings0 : Settings := {}

/-- A concrete oracle for witness evaluations. -/
def orc0 : Oracle :=
  { outcome := fun _ => Except.ok { content := "ok" }
    elapsed := fun _ => 0
    case_uuid := fun _ => "case-uuid" }

/-- A concrete test case for witness evaluations. -/
def tcHello : TestCase :=
  { id := some "tc-0"
    prompt := "Hello"
    category := TestCategory.prompt_understanding
    description := "greeting" }

/-- A concrete request with an empty credential (mock path). -/
def reqMock : TestExecutionRequest :=
  { test_cases := [tcHello]
    api_key := ""
    model := "gpt-3.5-turbo" }

/-- A concrete request with the placeholder credential (mock path). -/
def reqDummy : TestExecutionRequest :=
  { test_cases := [tcHello]
    api_key := "dummy_key"
    model := "gpt-3.5-turbo" }

/-- A concrete test case carrying an expected-response substring. -/
def tcExpected4 : TestCase :=
  { prompt := "What is 2+2?"
    expected_response := some "4"
    category := TestCategory.response_accuracy
    description := "Basic math accuracy" }

/-- A concrete fallback-handling test case without an expectation. -/
def tcFallback : TestCase :=
  { prompt := "What is the meaning of life?"
    category := TestCategory.fallback_handling
    description := "Philosophical question handling" }

/-- The store after one concrete mock execution. -/
def storeMock : List (String × TestExecutionResponse) :=
  (execute_test_suite reqMock settings0 "exec-1" orc0 0 []).store

/-- An inert default report, used only to destructure `Except`. -/
def reportDefault : TestReport :=
  { execution_id := ""
    test_suite_name := ""
    total_tests := 0
    passed_tests := 0
    failed_tests := 0
    success_rate := 0
    average_response_time := 0
    category_breakdown := []
    detailed_results := [] }

/-- The report generated from the concrete mock execution. -/
def repMock : TestReport :=
  match generate_test_report storeMock "exec-1" with
  | Except.ok r => r
  | Except.error _ => reportDefault

/-- `startsWithList` decides the prefix relation. -/
theorem startsWithList_iff (needle : List Char) :
    ∀ hay, startsWithList needle hay = true ↔ ∃ post, hay = needle ++ post := by
  induction needle with
  | nil =>
      intro hay
      simp [startsWithList]
  | cons a as ih =>
      intro hay
      cases hay with
      | nil =>
          simp [startsWithList]
      | cons b bs =>
          simp only [startsWithList, Bool.and_eq_true, beq_iff_eq, ih, List.cons_append,
            List.cons.injEq]
          constructor
          · rintro ⟨rfl, post, rfl⟩
            exact ⟨post, rfl, rfl⟩
          · rintro ⟨post, rfl, rfl⟩
            exact ⟨rfl, post, rfl⟩

/-- `containsList` decides contiguous-substring occurrence. -/
theorem containsList_iff (needle : List Char) :
    ∀ hay, containsList needle hay = true ↔ ∃ pre post, hay = pre ++ needle ++ post := by
  intro hay
  induction hay with
  | nil =>
      simp only [containsList, List.isEmpty_iff]
      constructor
      · rintro rfl
        exact ⟨[], [], rfl⟩
      · rintro ⟨pre, post, h⟩
        rcases List.append_eq_nil.mp h.symm with ⟨h1, h2⟩
        rcases List.append_eq_nil.mp h1 with ⟨_, h3⟩
        exact h3
  | cons b bs ih =>
      simp only [containsList, Bool.or_eq_true, startsWithList_iff, ih]
      constructor
      · rintro (⟨post, h⟩ | ⟨pre, post, rfl⟩)
        · exact ⟨[], post, by simpa using h⟩
        · exact ⟨b :: pre, post, rfl⟩
      · rintro ⟨pre, post, h⟩
        cases pre with
        | nil =>
            exact Or.inl ⟨post, by simpa using h⟩
        | cons p ps =>
            rw [List.cons_append, List.cons_append] at h
            injection h with _ h2
            exact Or.inr ⟨ps, post, h2⟩

/-- `strContains` agrees with the specification-side occurrence predicate. -/
theorem strContains_iff (hay needle : String) :
    strContains hay needle = true ↔ OccursIn needle hay := by
  unfold strContains OccursIn
  exact containsList_iff needle.toList hay.toList

/-- The execution loop yields one result per input case. -/
theorem runCases_length (model api_key : String) (orc : Oracle) :
    ∀ (start : Nat) (l : List TestCase),
      (runCases model api_key orc start l).length = l.length := by
  intro start l
  induction l generalizing start with
  | nil => rfl
  | cons tc rest ih => simp [runCases, ih]

/-- The i-th result of the execution loop is the processing of the i-th
input case, at oracle position `start + i`. -/
theorem runCases_get (model api_key : String) (orc : Oracle) :
    ∀ (l : List TestCase) (start i : Nat)
      (h2 : i < (runCases model api_key orc start l).length) (h : i < l.length),
      (runCases model api_key orc start l).get ⟨i, h2⟩ =
        runCase model api_key (assignId (orc.case_uuid (start + i)) (l.get ⟨i, h⟩))
          (orc.outcome (start + i)) (orc.elapsed (start + i)) := by
  intro l
  induction l with
  | nil =>
      intro start i h2 h
      exact absurd h (Nat.not_lt_zero i)
  | cons tc rest ih =>
      intro start i h2 h
      cases i with
      | zero => rfl
      | succ j =>
          have h2' : j < (runCases model api_key orc (start + 1) rest).length := by
            simpa [runCases] using h2
          have h' : j < rest.length := Nat.lt_of_succ_lt_succ h
          have := ih (start + 1) j h2' h'
          have harith : start + 1 + j = start + (j + 1) := by omega
          rw [harith] at this
          simpa [runCases, List.get] using this

/-- The pass/fail counter fold, from an arbitrary starting pair. -/
theorem tally_foldl (l : List TestResult) :
    ∀ p f : Nat,
      l.foldl tallyStep (p, f) = (p + countPassed l, f + countNotPassed l) := by
  induction l with
  | nil =>
      intro p f
      simp [countPassed, countNotPassed]
  | cons r rest ih =>
      intro p f
      by_cases h : r.status = TestStatus.passed
      · have hc : countPassed (r :: rest) = countPassed rest + 1 := by
          simp [countPassed, List.countP_cons, h]
        have hn : countNotPassed (r :: rest) = countNotPassed rest := by
          simp [countNotPassed, List.countP_cons, h]
        rw [List.foldl_cons]
        rw [show tallyStep (p, f) r = (p + 1, f) by simp [tallyStep, h]]
        rw [ih, hc, hn]
        have h1 : p + 1 + countPassed rest = p + (countPassed rest + 1) := by omega
        rw [h1]
      · have hc : countPassed (r :: rest) = countPassed rest := by
          simp [countPassed, List.countP_cons, h]
        have hn : countNotPassed (r :: rest) = countNotPassed rest + 1 := by
          simp [countNotPassed, List.countP_cons, h]
        rw [List.foldl_cons]
        rw [show tallyStep (p, f) r = (p, f + 1) by simp [tallyStep, h]]
        rw [ih, hc, hn]
        have h1 : f + 1 + countNotPassed rest = f + (countNotPassed rest + 1) := by omega
        rw [h1]

/-- The loop counters are exactly the pass / non-pass counts of the results. -/
theorem tally_spec (l : List TestResult) :
    tally l = (countPassed l, countNotPassed l) := by
  have := tally_foldl l 0 0
  simpa [tally] using this

/-- Every result is classified as passed or as not passed, so the two counts
sum to the number of results. -/
theorem countPassed_add_countNotPassed (l : List TestResult) :
    countPassed l + countNotPassed l = l.length := by
  induction l with
  | nil => rfl
  | cons r rest ih =>
      by_cases h : r.status = TestStatus.passed <;>
        simp [countPassed, countNotPassed, List.countP_cons, h] at * <;> omega

/-- Looking up the key just written returns the value just written. -/
theorem dictGet_dictInsert {β : Type} (store : List (String × β)) (k : String) (v : β) :
    dictGet (dictInsert store k v) k = some v := by
  induction store with
  | nil => simp [dictInsert, dictGet]
  | cons p rest ih =>
      by_cases h : p.1 = k
      · simp [dictInsert, dictGet, h]
      · simp [dictInsert, dictGet, h, ih]

/-- One breakdown update adds exactly one to the total count. -/
theorem sumValues_bumpCategory (b : List (String × Nat)) (cat : String) :
    sumValues (bumpCategory b cat) = sumValues b + 1 := by
  induction b with
  | nil => rfl
  | cons p rest ih =>
      by_cases h : p.1 = cat
      · simp [bumpCategory, h, sumValues]
        omega
      · simp [bumpCategory, h, sumValues] at *
        omega

/-- The breakdown fold adds the number of folded results to the total. -/
theorem sumValues_breakdown_foldl (l : List TestResult) :
    ∀ b : List (String × Nat),
      sumValues (l.foldl (fun b r => bumpCategory b (r.metadata.category.getD "unknown")) b) =
        sumValues b + l.length := by
  induction l with
  | nil =>
      intro b
      simp
  | cons r rest ih =>
      intro b
      rw [List.foldl_cons, ih, sumValues_bumpCategory]
      simp only [List.length_cons]
      omega

/-- With no credential, every result of the loop is a mock result. -/
theorem runCases_mock (model : String) (orc : Oracle) :
    ∀ (start : Nat) (l : List TestCase) (r : TestResult),
      r ∈ runCases model "" orc start l → ∃ tc, r = mockResult model tc := by
  intro start l
  induction l generalizing start with
  | nil =>
      intro r hr
      simp [runCases] at hr
  | cons tc rest ih =>
      intro r hr
      simp only [runCases, List.mem_cons] at hr
      rcases hr with h | h
      · exact ⟨assignId (orc.case_uuid start) tc, by rw [h]; simp [runCase]⟩
      · exact ih (start + 1) r h

/-- C1: the evaluator, given a test case and an actual response, follows
exactly this clause order with these exact outputs: (1) trimmed-empty
response → failed/0.0/"Empty response" regardless of category or
expectation; (2) else a declared (truthy) expected_response → passed/1.0
when it occurs case-insensitively anywhere in the response, otherwise
failed/0.0/"Response doesn't match expected pattern"; (3) else category
fallback_handling → passed/0.8 if any fixed fallback phrase occurs in the
lower-cased response, otherwise failed/0.3/"No fallback handling detected";
(4) else passed/0.7 with no error.  The hypothesis structure encodes the
precedence: the expectation check outranks the fallback heuristic, which
outranks the default pass. -/
theorem C1_evaluator_clause_order (tc : TestCase) (resp : String) :
    (pyStrip resp = "" →
      _evaluate_response tc resp = (TestStatus.failed, some 0, some "Empty response"))
  ∧ (∀ exp, pyStrip resp ≠ "" → tc.expected_response = some exp → exp ≠ "" →
      (OccursIn (pyLower exp) (pyLower resp) →
        _evaluate_response tc resp = (TestStatus.passed, some 1, none))
      ∧ (¬ OccursIn (pyLower exp) (pyLower resp) →
        _evaluate_response tc resp =
          (TestStatus.failed, some 0, some "Response doesn't match expected pattern")))
  ∧ (pyStrip resp ≠ "" → truthy tc.expected_response = false →
      tc.category = TestCategory.fallback_handling →
      ((∃ ind ∈ fallback_indicators, OccursIn ind (pyLower resp)) →
        _evaluate_response tc resp = (TestStatus.passed, some (8/10), none))
      ∧ (¬ (∃ ind ∈ fallback_indicators, OccursIn ind (pyLower resp)) →
        _evaluate_response tc resp =
          (TestStatus.failed, some (3/10), some "No fallback handling detected")))
  ∧ (pyStrip resp ≠ "" → truthy tc.expected_response = false →
      tc.category ≠ TestCategory.fallback_handling →
      _evaluate_response tc resp = (TestStatus.passed, some (7/10), none)) := by
  refine ⟨?_, ?_, ?_, ?_⟩
  · intro h
    simp [_evaluate_response, h]
  · intro exp hne hexp hxe
    constructor
    · intro hocc
      have hb : strContains (pyLower resp) (pyLower exp) = true := (strContains_iff _ _).mpr hocc
      simp [_evaluate_response, hne, hexp, truthy, hxe, hb]
    · intro hnocc
      have hb : strContains (pyLower resp) (pyLower exp) = false := by
        rw [Bool.eq_false_iff]
        intro hc
        exact hnocc ((strContains_iff _ _).mp hc)
      simp [_evaluate_response, hne, hexp, truthy, hxe, hb]
  · intro hne ht hcat
    constructor
    · rintro ⟨ind, hmem, hocc⟩
      have hb : (fallback_indicators.any fun ind => strContains (pyLower resp) ind) = true := by
        rw [List.any_eq_true]
        exact ⟨ind, hmem, (strContains_iff _ _).mpr hocc⟩
      simp [_evaluate_response, hne, ht, hcat, hb]
    · intro hnocc
      have hb : (fallback_indicators.any fun ind => strContains (pyLower resp) ind) = false := by
        rw [Bool.eq_false_iff]
        rw [Ne, List.any_eq_true]
        rintro ⟨ind, hmem, hc⟩
        exact hnocc ⟨ind, hmem, (strContains_iff _ _).mp hc⟩
      simp [_evaluate_response, hne, ht, hcat, hb]
  · intro hne ht hcat
    simp [_evaluate_response, hne, ht, hcat]

/-- C1 witness: the clause-order theorem applied at the spec's concrete
scenarios A ("4" occurs in "The answer is 4."), B (a fallback phrase occurs)
and D (empty response). -/
theorem C1_evaluator_clause_order_witness :
    _evaluate_response tcExpected4 "The answer is 4." = (TestStatus.passed, some 1, none)
  ∧ _evaluate_response tcFallback "I don't know the answer." =
      (TestStatus.passed, some (8/10), none)
  ∧ _evaluate_response tcHello "" = (TestStatus.failed, some 0, some "Empty response") :=
  ⟨((C1_evaluator_clause_order tcExpected4 "The answer is 4.").2.1 "4" (by decide) rfl
        (by decide)).1 ⟨"the answer is ".toList, ".".toList, by decide⟩,
   ((C1_evaluator_clause_order tcFallback "I don't know the answer.").2.2.1 (by decide) rfl
        rfl).1 ⟨"i don't know", by decide, [], " the answer.".toList, by decide⟩,
   (C1_evaluator_clause_order tcHello "").1 (by decide)⟩

/-- C5: the remote prompt invoker never raises past its boundary — on every
remote failure it returns a TestResult with status error, empty
actual_response and the stringified failure as error_message, and on both
the success and the failure path the elapsed wall-clock time measured
around the call is recorded in response_time. -/
theorem C5_test_prompt_error_boundary (model : String) (tc : TestCase) (msg : String)
    (outcome : Except String RemoteSuccess) (elapsed : ℚ) :
    (test_prompt model tc (Except.error msg) elapsed).status = TestStatus.error
  ∧ (test_prompt model tc (Except.error msg) elapsed).actual_response = ""
  ∧ (test_prompt model tc (Except.error msg) elapsed).error_message = some msg
  ∧ (test_prompt model tc outcome elapsed).response_time = elapsed := by
  refine ⟨rfl, rfl, rfl, ?_⟩
  cases outcome <;> rfl

/-- C8: AI-assisted case generation is extensionally the catalog lookup —
for every category, count and remote outcome (success or failure alike) it
returns exactly the predefined cases, never the model's output. -/
theorem C8_generate_equals_catalog (category : TestCategory) (count : Nat)
    (outcome : Except String RemoteSuccess) :
    generate_test_cases category count outcome = _get_predefined_test_cases category count := by
  cases outcome <;> rfl

/-- Taking `count` elements of a 3-element list equals taking `min count 3`,
and yields `min count 3` elements. -/
theorem take_of_three {α : Type} (l : List α) (hl : l.length = 3) (count : Nat) :
    l.take count = l.take (min count 3) ∧ (l.take count).length = min count 3 := by
  rcases Nat.le_total count 3 with h | h
  · have hmin : min count 3 = count := by omega
    rw [hmin]
    refine ⟨rfl, ?_⟩
    rw [List.length_take, hl]
    exact hmin
  · have hmin : min count 3 = 3 := by omega
    have h1 : l.take count = l := List.take_of_length_le (by omega)
    have h2 : l.take 3 = l := List.take_of_length_le (by omega)
    rw [hmin, h1, h2]
    exact ⟨rfl, hl⟩

/-- C9: each of the five categories has a catalog list of exactly 3 cases,
and _get_predefined_test_cases returns the first min(count, 3) of that list
for every (non-negative, modelled as Nat) count; in particular the default
count of 5 yields exactly the 3 catalog cases. -/
theorem C9_catalog_take (category : TestCategory) (count : Nat) :
    (predefinedCatalog category).length = 3
  ∧ _get_predefined_test_cases category count = (predefinedCatalog category).take (min count 3)
  ∧ (_get_predefined_test_cases category count).length = min count 3
  ∧ _get_predefined_test_cases category 5 = predefinedCatalog category := by
  have hlen : (predefinedCatalog category).length = 3 := by
    cases category <;> rfl
  obtain ⟨h1, h2⟩ := take_of_three (predefinedCatalog category) hlen count
  refine ⟨hlen, h1, h2, ?_⟩
  exact List.take_of_length_le (by rw [hlen]; omega)

/-- The results of an execution are the loop's results. -/
theorem execute_results (req : TestExecutionRequest) (s : Settings) (execution_id : String)
    (orc : Oracle) (execution_time : ℚ) (store : List (String × TestExecutionResponse)) :
    (execute_test_suite req s execution_id orc execution_time store).response.results =
      runCases req.model (effective_api_key req.api_key s) orc 0 req.test_cases := rfl

/-- The total_tests field of an execution is the input case count. -/
theorem execute_total (req : TestExecutionRequest) (s : Settings) (execution_id : String)
    (orc : Oracle) (execution_time : ℚ) (store : List (String × TestExecutionResponse)) :
    (execute_test_suite req s execution_id orc execution_time store).response.total_tests =
      req.test_cases.length := rfl

/-- The passed_tests counter of an execution counts the passed results. -/
theorem execute_passed (req : TestExecutionRequest) (s : Settings) (execution_id : String)
    (orc : Oracle) (execution_time : ℚ) (store : List (String × TestExecutionResponse)) :
    (execute_test_suite req s execution_id orc execution_time store).response.passed_tests =
      countPassed (runCases req.model (effective_api_key req.api_key s) orc 0 req.test_cases) := by
  show (tally (runCases req.model (effective_api_key req.api_key s) orc 0 req.test_cases)).1 = _
  rw [tally_spec]

/-- The failed_tests counter of an execution counts every non-passed result. -/
theorem execute_failed (req : TestExecutionRequest) (s : Settings) (execution_id : String)
    (orc : Oracle) (execution_time : ℚ) (store : List (String × TestExecutionResponse)) :
    (execute_test_suite req s execution_id orc execution_time store).response.failed_tests =
      countNotPassed (runCases req.model (effective_api_key req.api_key s) orc 0 req.test_cases) := by
  show (tally (runCases req.model (effective_api_key req.api_key s) orc 0 req.test_cases)).2 = _
  rw [tally_spec]

/-- C2: for every execution on a non-empty case list, total_tests equals
passed_tests + failed_tests, that sum equals the number of results,
passed_tests counts exactly the results with status passed, and
failed_tests counts every result with any other status — no case skipped. -/
theorem C2_tally_invariant (req : TestExecutionRequest) (s : Settings) (execution_id : String)
    (orc : Oracle) (execution_time : ℚ) (store : List (String × TestExecutionResponse))
    (hne : req.test_cases ≠ []) :
    (execute_test_suite req s execution_id orc execution_time store).response.total_tests =
       (execute_test_suite req s execution_id orc execution_time store).response.passed_tests +
         (execute_test_suite req s execution_id orc execution_time store).response.failed_tests
  ∧ (execute_test_suite req s execution_id orc execution_time store).response.passed_tests +
       (execute_test_suite req s execution_id orc execution_time store).response.failed_tests =
     (execute_test_suite req s execution_id orc execution_time store).response.results.length
  ∧ (execute_test_suite req s execution_id orc execution_time store).response.passed_tests =
     countPassed (execute_test_suite req s execution_id orc execution_time store).response.results
  ∧ (execute_test_suite req s execution_id orc execution_time store).response.failed_tests =
     countNotPassed
       (execute_test_suite req s execution_id orc execution_time store).response.results := by
  have hp := execute_passed req s execution_id orc execution_time store
  have hf := execute_failed req s execution_id orc execution_time store
  have hres := execute_results req s execution_id orc execution_time store
  have ht := execute_total req s execution_id orc execution_time store
  have hlen := runCases_length req.model (effective_api_key req.api_key s) orc 0 req.test_cases
  have hsum := countPassed_add_countNotPassed
    (runCases req.model (effective_api_key req.api_key s) orc 0 req.test_cases)
  refine ⟨?_, ?_, ?_, ?_⟩
  · rw [ht, hp, hf, hsum, hlen]
  · rw [hp, hf, hsum, hres]
  · rw [hp, hres]
  · rw [hf, hres]

/-- C2 witness: the tally invariant at a concrete one-case request. -/
theorem C2_tally_invariant_witness :
    (execute_test_suite reqMock settings0 "exec-1" orc0 0 []).response.total_tests =
       (execute_test_suite reqMock settings0 "exec-1" orc0 0 []).response.passed_tests +
         (execute_test_suite reqMock settings0 "exec-1" orc0 0 []).response.failed_tests
  ∧ (execute_test_suite reqMock settings0 "exec-1" orc0 0 []).response.passed_tests +
       (execute_test_suite reqMock settings0 "exec-1" orc0 0 []).response.failed_tests =
     (execute_test_suite reqMock settings0 "exec-1" orc0 0 []).response.results.length
  ∧ (execute_test_suite reqMock settings0 "exec-1" orc0 0 []).response.passed_tests =
     countPassed (execute_test_suite reqMock settings0 "exec-1" orc0 0 []).response.results
  ∧ (execute_test_suite reqMock settings0 "exec-1" orc0 0 []).response.failed_tests =
     countNotPassed (execute_test_suite reqMock settings0 "exec-1" orc0 0 []).response.results :=
  C2_tally_invariant reqMock settings0 "exec-1" orc0 0 [] (by decide)

/-- C7: the results list of an execution has exactly the length of the input
case list, and its i-th entry is the processing of the i-th input case (the
loop is strictly sequential in input order). -/
theorem C7_results_preserve_order (req : TestExecutionRequest) (s : Settings)
    (execution_id : String) (orc : Oracle) (execution_time : ℚ)
    (store : List (String × TestExecutionResponse)) :
    (execute_test_suite req s execution_id orc execution_time store).response.results.length =
      req.test_cases.length
  ∧ ∀ (i : Nat) (h : i < req.test_cases.length)
      (h2 : i <
        (execute_test_suite req s execution_id orc execution_time store).response.results.length),
      (execute_test_suite req s execution_id orc execution_time store).response.results.get
          ⟨i, h2⟩ =
        runCase req.model (effective_api_key req.api_key s)
          (assignId (orc.case_uuid i) (req.test_cases.get ⟨i, h⟩))
          (orc.outcome i) (orc.elapsed i) := by
  constructor
  · rw [execute_results]
    exact runCases_length req.model (effective_api_key req.api_key s) orc 0 req.test_cases
  · intro i h h2
    have h2' : i <
        (runCases req.model (effective_api_key req.api_key s) orc 0 req.test_cases).length := h2
    have hg := runCases_get req.model (effective_api_key req.api_key s) orc req.test_cases 0 i
      h2' h
    rw [Nat.zero_add] at hg
    exact hg

/-- C7 witness: order preservation at a concrete one-case request. -/
theorem C7_results_preserve_order_witness :
    (execute_test_suite reqMock settings0 "exec-1" orc0 0 []).response.results.length =
      reqMock.test_cases.length
  ∧ (execute_test_suite reqMock settings0 "exec-1" orc0 0 []).response.results.get
        ⟨0, by decide⟩ =
      runCase reqMock.model (effective_api_key reqMock.api_key settings0)
        (assignId (orc0.case_uuid 0) (reqMock.test_cases.get ⟨0, by decide⟩))
        (orc0.outcome 0) (orc0.elapsed 0) :=
  ⟨(C7_results_preserve_order reqMock settings0 "exec-1" orc0 0 []).1,
   (C7_results_preserve_order reqMock settings0 "exec-1" orc0 0 []).2 0 (by decide) (by decide)⟩

/-- C6: when the request credential is absent or the placeholder "dummy_key"
and no fallback credential is configured, execute_test_suite (which is a
total function, so it cannot raise) produces for every input case a mock
result: status passed, accuracy score 1.0, the fixed placeholder message,
and metadata tagged mock = true. -/
theorem C6_mock_path (req : TestExecutionRequest) (s : Settings) (execution_id : String)
    (orc : Oracle) (execution_time : ℚ) (store : List (String × TestExecutionResponse))
    (hkey : req.api_key = "" ∨ req.api_key = "dummy_key")
    (h1 : s.OPENROUTER_API_KEY = "") (h2 : s.OPENAI_API_KEY = "") :
    ∀ r ∈ (execute_test_suite req s execution_id orc execution_time store).response.results,
      r.status = TestStatus.passed ∧ r.accuracy_score = some 1 ∧
      r.actual_response = mockMessage ∧ r.metadata.mock = some true := by
  intro r hr
  have hk : effective_api_key req.api_key s = "" := by
    unfold effective_api_key pyOrS
    rcases hkey with h | h <;> rw [h] <;> simp [h1, h2]
  rw [execute_results, hk] at hr
  obtain ⟨tc, rfl⟩ := runCases_mock req.model orc 0 req.test_cases r hr
  exact ⟨rfl, rfl, rfl, rfl⟩

/-- C6 witness: the mock-path theorem applied to the one result of a
concrete request carrying the placeholder credential. -/
theorem C6_mock_path_witness :
    (mockResult "gpt-3.5-turbo" tcHello).status = TestStatus.passed
  ∧ (mockResult "gpt-3.5-turbo" tcHello).accuracy_score = some 1
  ∧ (mockResult "gpt-3.5-turbo" tcHello).actual_response = mockMessage
  ∧ (mockResult "gpt-3.5-turbo" tcHello).metadata.mock = some true :=
  C6_mock_path reqDummy settings0 "exec-1" orc0 0 [] (Or.inr rfl) rfl rfl
    (mockResult "gpt-3.5-turbo" tcHello) (List.mem_cons_self _ _)

/-- C10: the category breakdown counts every result — passed, failed and
error alike — under its metadata category tag (or "unknown" when absent),
so its values sum to the length of the result list; the execution summary
carries exactly this breakdown of the full result list, and so does every
report the generator returns. -/
theorem C10_breakdown_counts_all :
    (∀ results : List TestResult,
      sumValues (_get_category_breakdown results) = results.length)
  ∧ (∀ (req : TestExecutionRequest) (s : Settings) (execution_id : String) (orc : Oracle)
      (execution_time : ℚ) (store : List (String × TestExecutionResponse)),
      (execute_test_suite req s execution_id orc execution_time
          store).response.summary.category_breakdown =
        _get_category_breakdown
          (execute_test_suite req s execution_id orc execution_time store).response.results)
  ∧ (∀ (store : List (String × TestExecutionResponse)) (execution_id : String)
      (rep : TestReport),
      generate_test_report store execution_id = Except.ok rep →
      rep.category_breakdown = _get_category_breakdown rep.detailed_results ∧
      sumValues rep.category_breakdown = rep.detailed_results.length) := by
  refine ⟨?_, ?_, ?_⟩
  · intro results
    have h := sumValues_breakdown_foldl results []
    simpa [_get_category_breakdown, sumValues] using h
  · intro req s execution_id orc execution_time store
    rfl
  · intro store execution_id rep h
    unfold generate_test_report at h
    cases hg : dictGet store execution_id with
    | none =>
        rw [hg] at h
        simp at h
    | some execution =>
        rw [hg] at h
        injection h with h'
        subst h'
        refine ⟨rfl, ?_⟩
        have hsum := sumValues_breakdown_foldl execution.results ([] : List (String × Nat))
        simpa [_get_category_breakdown, sumValues] using hsum

/-- C10 witness: the breakdown theorem applied to the report of a stored
concrete execution. -/
theorem C10_breakdown_counts_all_witness :
    generate_test_report storeMock "exec-1" = Except.ok repMock
  ∧ repMock.category_breakdown = _get_category_breakdown repMock.detailed_results
  ∧ sumValues repMock.category_breakdown = repMock.detailed_results.length :=
  have h : generate_test_report storeMock "exec-1" = Except.ok repMock := rfl
  ⟨h, C10_breakdown_counts_all.2.2 storeMock "exec-1" repMock h⟩

/-- C4: for every stored execution (the store is written only by
execute_test_suite), the report generator succeeds on its id and returns a
report whose success_rate equals passed/total*100 with passed the number of
passed results in the stored result list and total that list's length, and
whose average_response_time is the arithmetic mean of response_time over
that list. -/
theorem C4_report_rates (req : TestExecutionRequest) (s : Settings) (execution_id : String)
    (orc : Oracle) (execution_time : ℚ) (store : List (String × TestExecutionResponse)) :
    ∃ rep : TestReport,
      generate_test_report (execute_test_suite req s execution_id orc execution_time store).store
          execution_id = Except.ok rep
      ∧ rep.detailed_results =
          (execute_test_suite req s execution_id orc execution_time store).response.results
      ∧ rep.success_rate =
          ((countPassed rep.detailed_results : ℚ) / (rep.detailed_results.length : ℚ)) * 100
      ∧ rep.average_response_time =
          (rep.detailed_results.map TestResult.response_time).sum /
            (rep.detailed_results.length : ℚ) := by
  have hget : dictGet (execute_test_suite req s execution_id orc execution_time store).store
      execution_id =
        some (execute_test_suite req s execution_id orc execution_time store).response :=
    dictGet_dictInsert store execution_id _
  have hok : generate_test_report
      (execute_test_suite req s execution_id orc execution_time store).store execution_id =
      Except.ok
        { execution_id := execution_id
          test_suite_name := "Generated Test Suite"
          total_tests :=
            (execute_test_suite req s execution_id orc execution_time store).response.total_tests
          passed_tests :=
            (execute_test_suite req s execution_id orc execution_time store).response.passed_tests
          failed_tests :=
            (execute_test_suite req s execution_id orc execution_time store).response.failed_tests
          success_rate :=
            if (execute_test_suite req s execution_id orc execution_time
                  store).response.total_tests > 0 then
              (((execute_test_suite req s execution_id orc execution_time
                    store).response.passed_tests : ℚ) /
                  ((execute_test_suite req s execution_id orc execution_time
                    store).response.total_tests : ℚ)) * 100
            else 0
          average_response_time :=
            if (execute_test_suite req s execution_id orc execution_time
                  store).response.results ≠ [] then
              ((execute_test_suite req s execution_id orc execution_time
                    store).response.results.map TestResult.response_time).sum /
                ((execute_test_suite req s execution_id orc execution_time
                  store).response.results.length : ℚ)
            else 0
          category_breakdown :=
            _get_category_breakdown
              (execute_test_suite req s execution_id orc execution_time store).response.results
          detailed_results :=
            (execute_test_suite req s execution_id orc execution_time store).response.results } := by
    unfold generate_test_report
    rw [hget]
  refine ⟨_, hok, rfl, ?_, ?_⟩
  · show (if (execute_test_suite req s execution_id orc execution_time
          store).response.total_tests > 0 then
        (((execute_test_suite req s execution_id orc execution_time
              store).response.passed_tests : ℚ) /
            ((execute_test_suite req s execution_id orc execution_time
              store).response.total_tests : ℚ)) * 100
      else 0) =
      ((countPassed (execute_test_suite req s execution_id orc execution_time
          store).response.results : ℚ) /
        ((execute_test_suite req s execution_id orc execution_time
          store).response.results.length : ℚ)) * 100
    rw [execute_passed, execute_total, execute_results]
    rw [runCases_length req.model (effective_api_key req.api_key s) orc 0 req.test_cases]
    by_cases hpos : req.test_cases.length > 0
    · rw [if_pos hpos]
    · rw [if_neg hpos]
      have h0 : req.test_cases.length = 0 := by omega
      have hr0 : (runCases req.model (effective_api_key req.api_key s) orc 0
          req.test_cases).length = 0 := by
        rw [runCases_length]
        exact h0
      have hnil : runCases req.model (effective_api_key req.api_key s) orc 0 req.test_cases =
          [] := List.length_eq_zero.mp hr0
      rw [hnil]
      norm_num [countPassed]
  · show (if (execute_test_suite req s execution_id orc execution_time
          store).response.results ≠ [] then
        ((execute_test_suite req s execution_id orc execution_time
              store).response.results.map TestResult.response_time).sum /
          ((execute_test_suite req s execution_id orc execution_time
            store).response.results.length : ℚ)
      else 0) =
      ((execute_test_suite req s execution_id orc execution_time
          store).response.results.map TestResult.response_time).sum /
        ((execute_test_suite req s execution_id orc execution_time
          store).response.results.length : ℚ)
    by_cases hnil : (execute_test_suite req s execution_id orc execution_time
        store).response.results = []
    · rw [if_neg (by simp [hnil])]
      rw [hnil]
      norm_num
    · rw [if_pos hnil]

/-- C3 (code-bug evidence): a request with an empty test-case list — and
likewise one with an empty credential — is rejected before any remote call
(zero remote calls, store unchanged, no ExecutionResult created), but the
client observes HTTP 500, not the 400 the handler's own HTTPException
constructs, because the handler's blanket `except Exception` swallows it
and re-raises a 500. -/
theorem C3_validation_rejected_as_500 (s : Settings) (execution_id : String) (orc : Oracle)
    (execution_time : ℚ) (store : List (String × TestExecutionResponse)) :
    execute_tests_route { test_cases := [], api_key := "sk-test" } s execution_id orc
        execution_time store =
      { response := RouteResponse.httpError 500
          "Failed to execute tests: 400: At least one test case is required"
        store := store
        remote_calls := 0 }
  ∧ execute_tests_route { test_cases := [tcHello], api_key := "" } s execution_id orc
        execution_time store =
      { response := RouteResponse.httpError 500
          "Failed to execute tests: 400: API key is required"
        store := store
        remote_calls := 0 } := by
  constructor <;> rfl

end AITest
